import Mathlib

/-!
Verification development for the work-hour tracking CLI (`src/main.rs`).

Shallow embedding conventions:
* Rust `&str` values are modelled as `List Char` (`Str`).
* `chrono::Duration` values are modelled as `Int` nanoseconds (chrono stores
  durations at nanosecond precision; division by an integer divides the total
  nanosecond count, truncating toward zero, which `Int.div` matches).
* `DateTime<Local>` values produced by `create_time` are all anchored to the
  current local day, so they are modelled as `Int` nanoseconds since local
  midnight of that day.  We model a DST-free day, on which
  `and_local_timezone(tz).single()` succeeds for every in-range wall-clock
  time; no claim involves a DST transition.
* Rust panics (`unwrap` failures, explicit `panic!`, and slice
  index-out-of-bounds) are modelled as `Option.none` / `Except.error`.
  `CalcError.indexOutOfBounds` marks the slice-indexing panic in
  `calculate_duration_from_string_ts`; `CalcError.panicked` marks every
  panic reached through the parse-error diagnostic paths (`error!` +
  `panic!` or `unwrap` on a parse / calendar-construction failure).
* chrono `Duration` arithmetic panics outside `±i64::MAX` milliseconds.  The
  explicit `try_hours` / `try_minutes` / `try_seconds` bound checks and the
  overflow panic of `Add` inside `create_duration` are modelled; the
  remaining report arithmetic stays exact `Int` arithmetic, since its inputs
  (same-day instants and already-bounded durations) keep it far from the
  chrono bounds.
-/

/-- Rust string slices, modelled as lists of characters. -/
abbrev Str := List Char

/-- Nanoseconds per second; `Duration` values are integers counting nanoseconds. -/
def nsPerSec : Int := 1000000000

/-- Tail of `str.split(sep)` for a single-character separator: `acc` holds the
(reversed) characters of the chunk currently being read. -/
def splitOnAux (sep : Char) : List Char → List Char → List (List Char)
  | [], acc => [acc.reverse]
  | c :: cs, acc =>
    if c = sep then acc.reverse :: splitOnAux sep cs []
    else splitOnAux sep cs (c :: acc)

/-- Rust `str::split` with a single-character pattern, collected into a vector.
Like Rust's, it always returns at least one chunk (`"" → [""]`). -/
def splitOn (sep : Char) (s : Str) : List Str := splitOnAux sep s []

/-- Rust `str::parse::<u32>()`: optional leading `'+'`, then one or more ASCII
digits, value below `2^32`; anything else is an `Err` (and the caller's
`unwrap` panics). -/
def parseU32 (s : Str) : Option Nat :=
  let digits := match s with
    | c :: rest => if c = '+' then rest else s
    | [] => []
  if digits = [] then none
  else if digits.all Char.isDigit then
    let n := digits.foldl (fun a c => a * 10 + (c.toNat - 48)) 0
    if n < 4294967296 then some n else none
  else none

/-- Rust `str::parse::<i64>()`: optional leading `'+'` or `'-'`, then one or
more ASCII digits, value within the `i64` range. -/
def parseI64 (s : Str) : Option Int :=
  match s with
  | [] => none
  | c :: rest =>
    let neg : Bool := c = '-'
    let digits := if c = '-' ∨ c = '+' then rest else s
    if digits = [] then none
    else if digits.all Char.isDigit then
      let n : Nat := digits.foldl (fun a c => a * 10 + (c.toNat - 48)) 0
      if neg then
        if n ≤ 9223372036854775808 then some (-(n : Int)) else none
      else
        if n < 9223372036854775808 then some ((n : Int)) else none
    else none

/-- Maps `parseU32` over the chunks, propagating the first `unwrap` panic. -/
def parseAllU32 : List Str → Option (List Nat)
  | [] => some []
  | p :: ps =>
    match parseU32 p with
    | none => none
    | some n =>
      match parseAllU32 ps with
      | none => none
      | some ns => some (n :: ns)

/-- Maps `parseI64` over the chunks, propagating the first `unwrap` panic. -/
def parseAllI64 : List Str → Option (List Int)
  | [] => some []
  | p :: ps =>
    match parseI64 p with
    | none => none
    | some n =>
      match parseAllI64 ps with
      | none => none
      | some ns => some (n :: ns)

/-- `extract`: split the input on `':'` and parse every part as `u32`
(the Rust code `unwrap`s each parse, modelled as `none`). -/
def extract (input : Str) : Option (List Nat) :=
  parseAllU32 (splitOn ':' input)

/-- `NaiveDate::and_hms_opt`: valid for `hour < 24`, `minute < 60`,
`second < 60`; yields the offset of that wall-clock time from local midnight,
in nanoseconds. -/
def and_hms (h m s : Nat) : Option Int :=
  if h < 24 ∧ m < 60 ∧ s < 60 then
    some (((h * 3600 + m * 60 + s : Nat) : Int) * nsPerSec)
  else none

/-- `create_time`: build a `DateTime<Local>` on the current day from
`"HH:MM"` or `"HH:MM:SS"`.  A part count other than 2 or 3 hits the
`error!` + `panic!` arm; parse and calendar failures hit `unwrap` panics. -/
def create_time (input : Str) : Option Int :=
  match extract input with
  | none => none
  | some hm =>
    match hm with
    | [h, m] => and_hms h m 0
    | [h, m, s] => and_hms h m s
    | _ => none

/-- `Duration::try_hours`: in range iff the duration stays within
`±i64::MAX` milliseconds. -/
def try_hours (h : Int) : Option Int :=
  if (h * 3600000).natAbs ≤ 9223372036854775807 then some (h * 3600 * nsPerSec)
  else none

/-- `Duration::try_minutes`. -/
def try_minutes (m : Int) : Option Int :=
  if (m * 60000).natAbs ≤ 9223372036854775807 then some (m * 60 * nsPerSec)
  else none

/-- `Duration::try_seconds`. -/
def try_seconds (s : Int) : Option Int :=
  if (s * 1000).natAbs ≤ 9223372036854775807 then some (s * nsPerSec)
  else none

/-- chrono `Duration + Duration`: panics (here `none`) when the sum leaves
`±i64::MAX` milliseconds, i.e. `±9223372036854775807000000` nanoseconds. -/
def dur_add (a b : Int) : Option Int :=
  if (a + b).natAbs ≤ 9223372036854775807000000 then some (a + b) else none

/-- `create_duration`: split on `':'`, parse every part as `i64`, then build
`hours + minutes` or `hours + minutes + seconds`; any other part count hits
the `error!` + `panic!` arm. -/
def create_duration (input : Str) : Option Int :=
  match parseAllI64 (splitOn ':' input) with
  | none => none
  | some times_str =>
    match times_str with
    | [h, m] =>
      match try_hours h, try_minutes m with
      | some hn, some mn => dur_add hn mn
      | _, _ => none
    | [h, m, s] =>
      match try_hours h, try_minutes m, try_seconds s with
      | some hn, some mn, some sn =>
        match dur_add hn mn with
        | none => none
        | some hmn => dur_add hmn sn
      | _, _, _ => none
    | _ => none

/-- How a run of `calculate_duration_from_string_ts` (or of `main`) dies:
`indexOutOfBounds` is the slice-indexing panic on `times_str[1]`;
`panicked` covers the parse-error diagnostic paths (`error!` + `panic!`
and the `unwrap` panics inside `create_time` / `create_duration`). -/
inductive CalcError where
  | indexOutOfBounds
  | panicked
deriving DecidableEq, Repr

/-- `calculate_duration_from_string_ts`: split the argument on `'-'`, read
chunks 0 and 1 (chunk 1 is out of bounds when the split produced a single
chunk), parse both via `create_time`, and return the absolute difference. -/
def calculate_duration_from_string_ts (input : Str) : Except CalcError Int :=
  match splitOn '-' input with
  | a :: b :: _ =>
    match create_time a, create_time b with
    | some s, some e => .ok (if e < s then s - e else e - s)
    | _, _ => .error .panicked
  | _ => .error .indexOutOfBounds

/-- `break_short`: `Duration::try_minutes(30).unwrap()`. -/
def break_short : Int := 30 * 60 * nsPerSec

/-- `break_large`: `Duration::try_minutes(45).unwrap()`. -/
def break_large : Int := 45 * 60 * nsPerSec

/-- The default break chosen when no `-b` argument was given
(`main`, lines 228-233): 45 minutes once the total elapsed time reaches
9 hours plus the short break, 30 minutes below that. -/
def default_break_policy (total_time : Int) : Int :=
  if 9 * 3600 * nsPerSec + break_short ≤ total_time then break_large
  else break_short

/-- The explicit-breaks loop (`main`, lines 235-242): starting from
`(0, 0)`, add every break duration to the running total and replace the
running longest break only on strict greater-than. -/
def accumulate_breaks (durs : List Int) : Int × Int :=
  durs.foldl (fun p d => (p.1 + d, if p.2 < d then d else p.2)) (0, 0)

/-- Runs `calculate_duration_from_string_ts` on every `-b` argument in order,
propagating the first panic (the Rust loop dies at the first bad argument). -/
def calc_all_breaks : List Str → Except CalcError (List Int)
  | [] => .ok []
  | b :: bs =>
    match calculate_duration_from_string_ts b with
    | .error e => .error e
    | .ok d =>
      match calc_all_breaks bs with
      | .error e => .error e
      | .ok ds => .ok (d :: ds)

/-- The string `"6:00"` from which `main` builds `min_start`. -/
def min_start_str : Str := ['6', ':', '0', '0']

/-- The quantities `main` computes and prints.  The three `proj*` fields are
the `DateTime` sums whose `.time()` components appear in the report
(`.time()` only truncates them to a time of day for display); `start_clamped`
records whether the informational `info!` notice of the floor policy was
emitted. -/
structure Report where
  start : Int
  start_clamped : Bool
  end_opt : Option Int
  workday : Int
  total_time : Int
  break_time : Int
  longest_break_time : Int
  work_time : Int
  done : Bool
  remainder : Int
  max_dur : Int
  proj_goal : Int
  proj9 : Int
  proj10 : Int
deriving DecidableEq, Repr

/-- The pure body of `main` (lines 178-270) on already-parsed inputs:
`ms` is `min_start`, `g` the parsed `-s` time, `eo` the parsed `-e` time
(`none` when `-e` was absent, modelling the `DateTime::default()` sentinel),
`wd` the resolved daily goal, `no_breaks` whether the `-b` list was empty,
and `durs` the parsed break durations. -/
def mk_report (now ms g : Int) (eo : Option Int) (wd : Int)
    (no_breaks : Bool) (durs : List Int) : Report :=
  let start_clamped : Bool := decide (g < ms)
  let start : Int := if g < ms then ms else g
  let total_time : Int :=
    match eo with
    | some e => e - start
    | none => now - start
  let bl : Int × Int :=
    if no_breaks then (default_break_policy total_time, 0)
    else accumulate_breaks durs
  let break_time : Int := bl.1
  let longest_break_time : Int := bl.2
  let work_time : Int := total_time - break_time
  let done : Bool := decide (wd < work_time)
  -- `if done { .. } else { .. }`: `done` is exactly the test `wd < work_time`
  let remainder : Int :=
    if wd < work_time then wd + break_time - total_time
    else total_time - (wd + break_time)
  { start := start
    start_clamped := start_clamped
    end_opt := eo
    workday := wd
    total_time := total_time
    break_time := break_time
    longest_break_time := longest_break_time
    work_time := work_time
    done := done
    remainder := remainder
    max_dur := start + 10 * 3600 * nsPerSec + max break_large break_time - now
    proj_goal := start + wd + break_time
    proj9 := start + 9 * 3600 * nsPerSec + max break_large break_time
    proj10 := start + 10 * 3600 * nsPerSec + max break_large break_time }

/-- Parses the optional `-e` argument (absence is the default sentinel,
presence must parse via `create_time` or the program panics). -/
def resolve_end (end_s : Option Str) : Except CalcError (Option Int) :=
  match end_s with
  | none => .ok none
  | some es =>
    match create_time es with
    | none => .error .panicked
    | some e => .ok (some e)

/-- Resolves the daily goal (`main`, lines 203-210): an explicit `-d`
duration, else the `-w` duration divided by 5 (`chrono` divides the
nanosecond total, truncating toward zero, which `Int.div` matches). -/
def resolve_workday (daily_s : Option Str) (weekly_s : Str) :
    Except CalcError Int :=
  match daily_s with
  | some ds =>
    match create_duration ds with
    | none => .error .panicked
    | some w => .ok w
  | none =>
    match create_duration weekly_s with
    | none => .error .panicked
    | some ww => .ok (Int.tdiv ww 5)

/-- The whole of `main` after argument collection, as a function of the
mocked current instant `now` (nanoseconds since local midnight) and the raw
argument strings: parse everything (propagating panics) and build the
report. -/
def compute_report (now : Int) (start_s : Str) (end_s : Option Str)
    (daily_s : Option Str) (weekly_s : Str) (breaks_s : List Str) :
    Except CalcError Report :=
  match create_time min_start_str with
  | none => .error .panicked
  | some ms =>
    match create_time start_s with
    | none => .error .panicked
    | some g =>
      match resolve_end end_s with
      | .error e => .error e
      | .ok eo =>
        match resolve_workday daily_s weekly_s with
        | .error e => .error e
        | .ok wd =>
          match calc_all_breaks breaks_s with
          | .error e => .error e
          | .ok durs => .ok (mk_report now ms g eo wd breaks_s.isEmpty durs)

/-- The argument string `"8:00"`. -/
def str_8_00 : Str := ['8', ':', '0', '0']

/-- The argument string `"5:00"`. -/
def str_5_00 : Str := ['5', ':', '0', '0']

/-- The argument string `"16:00"`. -/
def str_16_00 : Str := ['1', '6', ':', '0', '0']

/-- The argument string `"7:00"`. -/
def str_7_00 : Str := ['7', ':', '0', '0']

/-- The argument string `"7:30"`. -/
def str_7_30 : Str := ['7', ':', '3', '0']

/-- The argument string `"9:00"`. -/
def str_9_00 : Str := ['9', ':', '0', '0']

/-- The argument string `"9:30"`. -/
def str_9_30 : Str := ['9', ':', '3', '0']

/-- The default weekly-goal string `"39:00"`. -/
def str_39_00 : Str := ['3', '9', ':', '0', '0']

/-- The break-interval string `"12:00-12:30"`. -/
def brk_12_00_12_30 : Str :=
  ['1', '2', ':', '0', '0', '-', '1', '2', ':', '3', '0']

/-- The break-interval string `"9:00-9:15"`. -/
def brk_9_00_9_15 : Str := ['9', ':', '0', '0', '-', '9', ':', '1', '5']

/-- The break-interval string `"12:00-12:40"`. -/
def brk_12_00_12_40 : Str :=
  ['1', '2', ':', '0', '0', '-', '1', '2', ':', '4', '0']

/-- Report of the run `-s 8:00` with no end, no explicit goals and no breaks,
evaluated at a mocked now of 16:00 (the end-to-end example of the spec's
section 8): 8h elapsed, default 30m break, 7h30m worked against a 7h48m goal,
18 minutes short. -/
def repC : Report :=
  { start := 28800000000000
    start_clamped := false
    end_opt := none
    workday := 28080000000000
    total_time := 28800000000000
    break_time := 1800000000000
    longest_break_time := 0
    work_time := 27000000000000
    done := false
    remainder := -1080000000000
    max_dur := 9900000000000
    proj_goal := 58680000000000
    proj9 := 63900000000000
    proj10 := 67500000000000 }

/-- Report of the run `-s 5:00` (clamped to 6:00) with no end, no explicit
goals and no breaks, at a mocked now of 16:00. -/
def repD : Report :=
  { start := 21600000000000
    start_clamped := true
    end_opt := none
    workday := 28080000000000
    total_time := 36000000000000
    break_time := 2700000000000
    longest_break_time := 0
    work_time := 33300000000000
    done := true
    remainder := -5220000000000
    max_dur := 2700000000000
    proj_goal := 52380000000000
    proj9 := 56700000000000
    proj10 := 60300000000000 }

/-- Report of the run `-s 8:00 -b 9:00-9:15 -b 12:00-12:40` with no end and
no explicit goals, at a mocked now of 16:00: 55 minutes of breaks, longest
40 minutes. -/
def repE : Report :=
  { start := 28800000000000
    start_clamped := false
    end_opt := none
    workday := 28080000000000
    total_time := 28800000000000
    break_time := 3300000000000
    longest_break_time := 2400000000000
    work_time := 25500000000000
    done := false
    remainder := -2580000000000
    max_dur := 10500000000000
    proj_goal := 60180000000000
    proj9 := 64500000000000
    proj10 := 68100000000000 }
example : create_time ['8', ':', '3', '0'] = some 30600000000000 := by decide
example : create_time ['8', ':', '3', '0', ':', '1', '5'] = some 30615000000000 := by decide
example : create_time ['8', ':', '3', '0', ':', '1', '5', ':', '0', '0'] = none := by decide
example : create_duration ['3', '9', ':', '0', '0'] = some 140400000000000 := by decide
example : calculate_duration_from_string_ts
    ['9', ':', '0', '0', '-', '9', ':', '3', '0'] = .ok 1800000000000 := by rfl
example : calculate_duration_from_string_ts
    ['9', ':', '3', '0', '-', '9', ':', '0', '0'] = .ok 1800000000000 := by rfl
example : calculate_duration_from_string_ts ['9', ':', '0', '0'] =
    .error CalcError.indexOutOfBounds := by rfl

example :
    compute_report 57600000000000 str_8_00 none none str_39_00 [] =
      .ok repC := by rfl
example :
    compute_report 57600000000000 str_5_00 none none str_39_00 [] =
      .ok repD := by rfl
example :
    compute_report 57600000000000 str_8_00 none none str_39_00
      [brk_9_00_9_15, brk_12_00_12_40] = .ok repE := by rfl

theorem splitOnAux_eq_of_not_mem (sep : Char) (s acc : List Char)
    (h : sep ∉ s) : splitOnAux sep s acc = [acc.reverse ++ s] := by
  induction s generalizing acc with
  | nil => simp [splitOnAux]
  | cons c cs ih =>
    have hc : ¬ c = sep := fun e => h (by simp [e])
    rw [splitOnAux.eq_def]
    simp only [if_neg hc]
    rw [ih _ (fun hm => h (List.mem_cons_of_mem _ hm))]
    simp

theorem splitOn_eq_of_not_mem (sep : Char) (s : Str) (h : sep ∉ s) :
    splitOn sep s = [s] := by
  simpa [splitOn] using splitOnAux_eq_of_not_mem sep s [] h

theorem splitOnAux_append (sep : Char) (s1 s2 acc : List Char)
    (h : sep ∉ s1) :
    splitOnAux sep (s1 ++ sep :: s2) acc =
      (acc.reverse ++ s1) :: splitOnAux sep s2 [] := by
  induction s1 generalizing acc with
  | nil => simp [splitOnAux]
  | cons c cs ih =>
    have hc : ¬ c = sep := fun e => h (by simp [e])
    rw [List.cons_append, splitOnAux.eq_def]
    simp only [if_neg hc]
    rw [ih _ (fun hm => h (List.mem_cons_of_mem _ hm))]
    simp

theorem splitOn_append (sep : Char) (s1 s2 : Str) (h : sep ∉ s1) :
    splitOn sep (s1 ++ sep :: s2) = s1 :: splitOn sep s2 := by
  simpa [splitOn] using splitOnAux_append sep s1 s2 [] h

theorem splitOnAux_mem_acc (sep c : Char) (s acc : List Char) (h : c ∈ acc) :
    ∃ p ∈ splitOnAux sep s acc, c ∈ p := by
  induction s generalizing acc with
  | nil => exact ⟨acc.reverse, by simp [splitOnAux], by simp [h]⟩
  | cons d ds ih =>
    by_cases hd : d = sep
    · refine ⟨acc.reverse, ?_, by simp [h]⟩
      rw [splitOnAux.eq_def]
      simp [hd]
    · obtain ⟨p, hp, hcp⟩ := ih (d :: acc) (List.mem_cons_of_mem _ h)
      refine ⟨p, ?_, hcp⟩
      rw [splitOnAux.eq_def]
      simp only [if_neg hd]
      exact hp

theorem splitOnAux_mem (sep c : Char) (hne : c ≠ sep) :
    ∀ s acc : List Char, c ∈ s → ∃ p ∈ splitOnAux sep s acc, c ∈ p := by
  intro s
  induction s with
  | nil => intro acc hc; cases hc
  | cons d ds ih =>
    intro acc hc
    by_cases hd : d = sep
    · have hcds : c ∈ ds := by
        rcases List.mem_cons.mp hc with h | h
        · exact absurd (h.trans hd) hne
        · exact h
      obtain ⟨p, hp, hcp⟩ := ih [] hcds
      refine ⟨p, ?_, hcp⟩
      rw [splitOnAux.eq_def]
      simp only [if_pos hd]
      exact List.mem_cons_of_mem _ hp
    · rcases List.mem_cons.mp hc with h | h
      · subst h
        obtain ⟨p, hp, hcp⟩ :=
          splitOnAux_mem_acc sep c ds (c :: acc) (List.mem_cons_self _ _)
        refine ⟨p, ?_, hcp⟩
        rw [splitOnAux.eq_def]
        simp only [if_neg hd]
        exact hp
      · obtain ⟨p, hp, hcp⟩ := ih (d :: acc) h
        refine ⟨p, ?_, hcp⟩
        rw [splitOnAux.eq_def]
        simp only [if_neg hd]
        exact hp

theorem exists_chunk_of_mem (sep c : Char) (s : Str) (hc : c ∈ s)
    (hne : c ≠ sep) : ∃ p ∈ splitOn sep s, c ∈ p :=
  splitOnAux_mem sep c hne s [] hc

theorem parseU32_eq_none_of_mem (p : Str) (c : Char) (hc : c ∈ p)
    (hdig : c.isDigit = false) (hplus : c ≠ '+') : parseU32 p = none := by
  cases p with
  | nil => cases hc
  | cons a rest =>
    have hcd : c ∈ (if a = '+' then rest else a :: rest) := by
      split
      · rcases List.mem_cons.mp hc with h | h
        · exact absurd (h.trans (by assumption)) hplus
        · exact h
      · exact hc
    have hall : ((if a = '+' then rest else a :: rest).all Char.isDigit) = false := by
      cases hA : ((if a = '+' then rest else a :: rest).all Char.isDigit) with
      | false => rfl
      | true => exact absurd (List.all_eq_true.mp hA c hcd) (by simp [hdig])
    simp [parseU32, hall]

theorem parseAllU32_eq_none_of_mem (l : List Str) (p : Str) (hp : p ∈ l)
    (hnone : parseU32 p = none) : parseAllU32 l = none := by
  induction l with
  | nil => cases hp
  | cons q qs ih =>
    rcases List.mem_cons.mp hp with h | h
    · subst h
      simp [parseAllU32, hnone]
    · cases hq : parseU32 q with
      | none => simp [parseAllU32, hq]
      | some n => simp [parseAllU32, hq, ih h]

theorem create_time_not_mem_dash (s : Str) (t : Int)
    (h : create_time s = some t) : ('-' : Char) ∉ s := by
  intro hmem
  obtain ⟨p, hp, hcp⟩ := exists_chunk_of_mem ':' '-' s hmem (by decide)
  have h1 : parseU32 p = none :=
    parseU32_eq_none_of_mem p '-' hcp (by decide) (by decide)
  have h2 : extract s = none := parseAllU32_eq_none_of_mem _ p hp h1
  simp [create_time, h2] at h

theorem accumulate_breaks_aux (durs : List Int) (b l : Int) :
    durs.foldl (fun p d => (p.1 + d, if p.2 < d then d else p.2)) (b, l) =
      (b + durs.sum, durs.foldl max l) := by
  induction durs generalizing b l with
  | nil => simp
  | cons d ds ih =>
    simp only [List.foldl_cons, List.sum_cons]
    rw [ih]
    have hmax : (if l < d then d else l) = max l d := by
      rcases le_or_lt d l with h | h
      · rw [if_neg (not_lt.mpr h), max_eq_left h]
      · rw [if_pos h, max_eq_right h.le]
    rw [hmax]
    congr 1
    ring

theorem accumulate_breaks_spec (durs : List Int) :
    accumulate_breaks durs = (durs.sum, durs.foldl max 0) := by
  simpa [accumulate_breaks] using accumulate_breaks_aux durs 0 0

theorem compute_report_ok_elim (now : Int) (start_s : Str)
    (end_s : Option Str) (daily_s : Option Str) (weekly_s : Str)
    (breaks_s : List Str) (r : Report)
    (h : compute_report now start_s end_s daily_s weekly_s breaks_s = .ok r) :
    ∃ g eo wd durs,
      create_time start_s = some g ∧
      resolve_end end_s = .ok eo ∧
      resolve_workday daily_s weekly_s = .ok wd ∧
      calc_all_breaks breaks_s = .ok durs ∧
      r = mk_report now 21600000000000 g eo wd breaks_s.isEmpty durs := by
  unfold compute_report at h
  split at h
  · simp at h
  rename_i ms hms
  split at h
  · simp at h
  rename_i g hg
  split at h
  · simp at h
  rename_i eo heo
  split at h
  · simp at h
  rename_i wd hwd
  split at h
  · simp at h
  rename_i durs hdurs
  have h6 : create_time min_start_str = some 21600000000000 := by decide
  rw [h6] at hms
  have hms' : (21600000000000 : Int) = ms := by
    exact Option.some.inj hms
  subst hms'
  injection h with h2
  exact ⟨g, eo, wd, durs, hg, heo, hwd, hdurs, h2.symm⟩

/-- C1 (amended): for every invocation, the remainder equals
(goal + break − total elapsed) when the done-flag is true and
(total elapsed − (goal + break)) when it is false, and in each case the
branch selected by the done-flag yields a non-positive duration (the report
prints its absolute value). -/
theorem c1_remainder_branches_nonpositive (now : Int) (start_s : Str)
    (end_s : Option Str) (daily_s : Option Str) (weekly_s : Str)
    (breaks_s : List Str) (r : Report)
    (h : compute_report now start_s end_s daily_s weekly_s breaks_s = .ok r) :
    (r.done = true → r.remainder = r.workday + r.break_time - r.total_time) ∧
    (r.done = false → r.remainder = r.total_time - (r.workday + r.break_time)) ∧
    r.remainder ≤ 0 := by
  obtain ⟨g, eo, wd, durs, -, -, -, -, hr⟩ :=
    compute_report_ok_elim _ _ _ _ _ _ _ h
  subst hr
  simp only [mk_report, decide_eq_true_eq, decide_eq_false_iff_not]
  refine ⟨fun hd => ?_, fun hd => ?_, ?_⟩
  · rw [if_pos hd]
  · rw [if_neg hd]
  · split_ifs with hd <;> omega

/-- C2: when no break-interval arguments are given, the default break is 30
minutes when total elapsed time is strictly below 9h30m and 45 minutes when
it is at least 9h30m. -/
theorem c2_default_break_policy (now : Int) (start_s : Str)
    (end_s : Option Str) (daily_s : Option Str) (weekly_s : Str) (r : Report)
    (h : compute_report now start_s end_s daily_s weekly_s [] = .ok r) :
    (r.total_time < (9 * 3600 + 30 * 60) * nsPerSec →
      r.break_time = 30 * 60 * nsPerSec) ∧
    ((9 * 3600 + 30 * 60) * nsPerSec ≤ r.total_time →
      r.break_time = 45 * 60 * nsPerSec) := by
  obtain ⟨g, eo, wd, durs, -, -, -, -, hr⟩ :=
    compute_report_ok_elim _ _ _ _ _ _ _ h
  subst hr
  simp only [mk_report, List.isEmpty_nil, if_true, default_break_policy,
    break_short, break_large, nsPerSec]
  norm_num

/-- C3: the projected clock-out instants at the 9-hour and 10-hour
thresholds each equal start plus the threshold plus the maximum of the
45-minute large break and the actual total break, the
maximum-duration-remaining equals (start + 10h + that maximum) − now, and
the added break offset is never below the 45-minute large break. -/
theorem c3_projection_thresholds (now : Int) (start_s : Str)
    (end_s : Option Str) (daily_s : Option Str) (weekly_s : Str)
    (breaks_s : List Str) (r : Report)
    (h : compute_report now start_s end_s daily_s weekly_s breaks_s = .ok r) :
    r.proj9 = r.start + 9 * 3600 * nsPerSec + max break_large r.break_time ∧
    r.proj10 = r.start + 10 * 3600 * nsPerSec + max break_large r.break_time ∧
    r.max_dur =
      r.start + 10 * 3600 * nsPerSec + max break_large r.break_time - now ∧
    break_large ≤ max break_large r.break_time := by
  obtain ⟨g, eo, wd, durs, -, -, -, -, hr⟩ :=
    compute_report_ok_elim _ _ _ _ _ _ _ h
  subst hr
  exact ⟨rfl, rfl, rfl, le_max_left _ _⟩

/-- C5: with a non-empty break list, the total break duration is the sum of
the parsed interval durations and the longest break is their running maximum
(updated only on strict greater-than, starting from zero). -/
theorem c5_break_accumulation (now : Int) (start_s : Str)
    (end_s : Option Str) (daily_s : Option Str) (weekly_s : Str)
    (breaks_s : List Str) (durs : List Int) (r : Report)
    (hne : breaks_s ≠ [])
    (hd : calc_all_breaks breaks_s = .ok durs)
    (h : compute_report now start_s end_s daily_s weekly_s breaks_s = .ok r) :
    r.break_time = durs.sum ∧ r.longest_break_time = durs.foldl max 0 := by
  obtain ⟨g, eo, wd, durs', -, -, -, hd', hr⟩ :=
    compute_report_ok_elim _ _ _ _ _ _ _ h
  have hde : durs' = durs := by
    have := hd'.symm.trans hd
    exact Except.ok.inj this
  subst hde
  subst hr
  cases breaks_s with
  | nil => exact absurd rfl hne
  | cons b bs =>
    simp only [mk_report, List.isEmpty_cons, accumulate_breaks_spec]
    norm_num

/-- C6: without an explicit daily-goal argument the daily goal is the parsed
weekly goal divided by 5 (chrono truncating division on the nanosecond
total), and the default weekly goal "39:00" yields a daily goal of 7h48m. -/
theorem c6_weekly_goal_division :
    (∀ (now : Int) (start_s : Str) (end_s : Option Str) (weekly_s : Str)
      (breaks_s : List Str) (r : Report),
      compute_report now start_s end_s none weekly_s breaks_s = .ok r →
      Option.map (fun w => Int.tdiv w 5) (create_duration weekly_s) =
        some r.workday) ∧
    Option.map (fun w => Int.tdiv w 5) (create_duration str_39_00) =
      some ((7 * 3600 + 48 * 60) * nsPerSec) := by
  constructor
  · intro now start_s end_s weekly_s breaks_s r h
    obtain ⟨g, eo, wd, durs, -, -, hwd, -, hr⟩ :=
      compute_report_ok_elim _ _ _ _ _ _ _ h
    subst hr
    cases hcw : create_duration weekly_s with
    | none => simp [resolve_workday, hcw] at hwd
    | some ww =>
      simp only [resolve_workday, hcw] at hwd
      have hww : Int.tdiv ww 5 = wd := Except.ok.inj hwd
      simp [mk_report, hww]
  · rfl

/-- C7: a parsed start time earlier than 06:00 local is clamped to 06:00
(with the informational notice recorded by `start_clamped`); otherwise the
effective start time is the parsed time unchanged. -/
theorem c7_start_floor_clamp (now : Int) (start_s : Str) (end_s : Option Str)
    (daily_s : Option Str) (weekly_s : Str) (breaks_s : List Str)
    (r : Report) (g : Int)
    (h : compute_report now start_s end_s daily_s weekly_s breaks_s = .ok r)
    (hg : create_time start_s = some g) :
    (g < 6 * 3600 * nsPerSec →
      r.start = 6 * 3600 * nsPerSec ∧ r.start_clamped = true) ∧
    (6 * 3600 * nsPerSec ≤ g →
      r.start = g ∧ r.start_clamped = false) := by
  obtain ⟨g', eo, wd, durs, hg', -, -, -, hr⟩ :=
    compute_report_ok_elim _ _ _ _ _ _ _ h
  have hge : g' = g := Option.some.inj (hg'.symm.trans hg)
  subst hge
  subst hr
  have e6 : (6 : Int) * 3600 * nsPerSec = 21600000000000 := by
    norm_num [nsPerSec]
  rw [e6]
  simp only [mk_report]
  constructor
  · intro h1
    exact ⟨if_pos h1, decide_eq_true h1⟩
  · intro h1
    exact ⟨if_neg (not_lt.mpr h1), decide_eq_false (not_lt.mpr h1)⟩

/-- C8 (amended): the done-flag is true exactly when the accumulated work
time strictly exceeds the daily goal; at exact equality it is false. -/
theorem c8_done_flag_strict (now : Int) (start_s : Str) (end_s : Option Str)
    (daily_s : Option Str) (weekly_s : Str) (breaks_s : List Str)
    (r : Report)
    (h : compute_report now start_s end_s daily_s weekly_s breaks_s = .ok r) :
    r.done = true ↔ r.workday < r.work_time := by
  obtain ⟨g, eo, wd, durs, -, -, -, -, hr⟩ :=
    compute_report_ok_elim _ _ _ _ _ _ _ h
  subst hr
  simp only [mk_report, decide_eq_true_eq]

/-- C10: the projected clock-out instant at the daily-goal threshold is
start + daily goal + actual total break with no 45-minute floor, so whenever
the actual break is below 45 minutes it is strictly below the floored
projection offset used by the 9h/10h thresholds. -/
theorem c10_goal_projection_no_floor (now : Int) (start_s : Str)
    (end_s : Option Str) (daily_s : Option Str) (weekly_s : Str)
    (breaks_s : List Str) (r : Report)
    (h : compute_report now start_s end_s daily_s weekly_s breaks_s = .ok r) :
    r.proj_goal = r.start + r.workday + r.break_time ∧
    (r.break_time < break_large →
      r.proj_goal < r.start + r.workday + max break_large r.break_time) := by
  obtain ⟨g, eo, wd, durs, -, -, -, -, hr⟩ :=
    compute_report_ok_elim _ _ _ _ _ _ _ h
  subst hr
  refine ⟨rfl, fun hb => ?_⟩
  simp only [mk_report] at hb ⊢
  rw [max_eq_left hb.le]
  omega

theorem calc_duration_concat (s1 s2 : Str) (t1 t2 : Int)
    (h1 : create_time s1 = some t1) (h2 : create_time s2 = some t2) :
    calculate_duration_from_string_ts (s1 ++ '-' :: s2) =
      .ok (if t2 < t1 then t1 - t2 else t2 - t1) := by
  have hn1 : ('-' : Char) ∉ s1 := create_time_not_mem_dash s1 t1 h1
  have hn2 : ('-' : Char) ∉ s2 := create_time_not_mem_dash s2 t2 h2
  rw [calculate_duration_from_string_ts, splitOn_append _ _ _ hn1,
    splitOn_eq_of_not_mem _ _ hn2]
  simp [h1, h2]

theorem if_sub_eq_abs (t1 t2 : Int) :
    (if t2 < t1 then t1 - t2 else t2 - t1) = |t1 - t2| := by
  rcases le_or_lt t1 t2 with h | h
  · rw [if_neg (not_lt.mpr h), abs_sub_comm,
      abs_of_nonneg (sub_nonneg.mpr h)]
  · rw [if_pos h, abs_of_nonneg (sub_nonneg.mpr h.le)]

/-- C4: for a break-interval string built from two parseable times around a
`'-'`, the computed duration is the absolute difference of the two
timestamps, hence non-negative and unchanged when the two times are
swapped. -/
theorem c4_break_interval_abs_diff (s1 s2 : Str) (t1 t2 : Int)
    (h1 : create_time s1 = some t1) (h2 : create_time s2 = some t2) :
    calculate_duration_from_string_ts (s1 ++ '-' :: s2) = .ok |t1 - t2| ∧
    calculate_duration_from_string_ts (s2 ++ '-' :: s1) = .ok |t1 - t2| ∧
    (0 : Int) ≤ |t1 - t2| := by
  refine ⟨?_, ?_, abs_nonneg _⟩
  · rw [calc_duration_concat s1 s2 t1 t2 h1 h2, if_sub_eq_abs]
  · rw [calc_duration_concat s2 s1 t2 t1 h2 h1, if_sub_eq_abs,
      abs_sub_comm]

/-- C9: a break argument that contains no `'-'` separator makes
`calculate_duration_from_string_ts` fail by out-of-bounds slice indexing
(not through the parse-error diagnostic path), and a duration is produced
only when the input contains at least one `'-'`. -/
theorem c9_missing_separator_oob (s : Str) :
    (('-' : Char) ∉ s →
      calculate_duration_from_string_ts s = .error CalcError.indexOutOfBounds) ∧
    (∀ d : Int, calculate_duration_from_string_ts s = .ok d →
      ('-' : Char) ∈ s) := by
  have key : ('-' : Char) ∉ s →
      calculate_duration_from_string_ts s = .error CalcError.indexOutOfBounds := by
    intro hnm
    rw [calculate_duration_from_string_ts, splitOn_eq_of_not_mem _ _ hnm]
  refine ⟨key, fun d hd => ?_⟩
  by_contra hnm
  rw [key hnm] at hd
  exact Except.noConfusion hd

/-- C1 counterexample: for the run `-s 8:00 -e 16:00 -d 7:00 -b 12:00-12:30`
(at a mocked now of 16:00) the done-flag is true and the selected branch
`workday + break_time - total_time` is the negative duration −30 minutes, so
the done branch does not yield a non-negative duration. -/
theorem c1_counterexample :
    Except.map Report.done (compute_report 57600000000000 str_8_00
        (some str_16_00) (some str_7_00) str_39_00 [brk_12_00_12_30]) =
      .ok true ∧
    Except.map Report.remainder (compute_report 57600000000000 str_8_00
        (some str_16_00) (some str_7_00) str_39_00 [brk_12_00_12_30]) =
      .ok (-1800000000000) ∧
    ¬ ((0 : Int) ≤ -1800000000000) :=
  ⟨rfl, rfl, by decide⟩

/-- C8 counterexample: for the run `-s 8:00 -e 16:00 -d 7:30 -b 12:00-12:30`
the work time equals the daily goal exactly (7h30m each), yet the done-flag
is false, so the flag is not "work time has met or exceeded the goal". -/
theorem c8_counterexample :
    Except.map Report.work_time (compute_report 57600000000000 str_8_00
        (some str_16_00) (some str_7_30) str_39_00 [brk_12_00_12_30]) =
      .ok 27000000000000 ∧
    Except.map Report.workday (compute_report 57600000000000 str_8_00
        (some str_16_00) (some str_7_30) str_39_00 [brk_12_00_12_30]) =
      .ok 27000000000000 ∧
    Except.map Report.done (compute_report 57600000000000 str_8_00
        (some str_16_00) (some str_7_30) str_39_00 [brk_12_00_12_30]) =
      .ok false :=
  ⟨rfl, rfl, rfl⟩

/-- Witness for C1 at the spec's end-to-end run. -/
theorem c1_witness : repC.remainder ≤ 0 :=
  (c1_remainder_branches_nonpositive 57600000000000 str_8_00 none none
    str_39_00 [] repC rfl).2.2

/-- Witness for C2: 8h elapsed is below the 9h30m threshold, 30m break. -/
theorem c2_witness : repC.break_time = 30 * 60 * nsPerSec :=
  (c2_default_break_policy 57600000000000 str_8_00 none none str_39_00 repC
    rfl).1 (by decide)

/-- Witness for C3 at the spec's end-to-end run. -/
theorem c3_witness :
    repC.proj9 =
      repC.start + 9 * 3600 * nsPerSec + max break_large repC.break_time ∧
    repC.proj10 =
      repC.start + 10 * 3600 * nsPerSec + max break_large repC.break_time ∧
    repC.max_dur =
      repC.start + 10 * 3600 * nsPerSec + max break_large repC.break_time -
        57600000000000 ∧
    break_large ≤ max break_large repC.break_time :=
  c3_projection_thresholds 57600000000000 str_8_00 none none str_39_00 []
    repC rfl

/-- Witness for C4: both `"9:00-9:30"` and `"9:30-9:00"` give 30 minutes. -/
theorem c4_witness :
    calculate_duration_from_string_ts (str_9_00 ++ '-' :: str_9_30) =
      .ok |32400000000000 - 34200000000000| ∧
    calculate_duration_from_string_ts (str_9_30 ++ '-' :: str_9_00) =
      .ok |32400000000000 - 34200000000000| ∧
    (0 : Int) ≤ |32400000000000 - 34200000000000| :=
  c4_break_interval_abs_diff str_9_00 str_9_30 32400000000000 34200000000000
    rfl rfl

/-- Witness for C5: breaks 9:00-9:15 and 12:00-12:40 total 55m, longest 40m. -/
theorem c5_witness :
    repE.break_time = ([900000000000, 2400000000000] : List Int).sum ∧
    repE.longest_break_time =
      ([900000000000, 2400000000000] : List Int).foldl max 0 :=
  c5_break_accumulation 57600000000000 str_8_00 none none str_39_00
    [brk_9_00_9_15, brk_12_00_12_40] [900000000000, 2400000000000] repE
    (by decide) rfl rfl

/-- Witness for C6: weekly "39:00" divided by 5 is the daily goal 7h48m. -/
theorem c6_witness :
    Option.map (fun w => Int.tdiv w 5) (create_duration str_39_00) =
      some repC.workday :=
  c6_weekly_goal_division.1 57600000000000 str_8_00 none str_39_00 [] repC rfl

/-- Witness for C7: start "5:00" is clamped to 6:00 with the notice. -/
theorem c7_witness :
    repD.start = 6 * 3600 * nsPerSec ∧ repD.start_clamped = true :=
  (c7_start_floor_clamp 57600000000000 str_5_00 none none str_39_00 [] repD
    18000000000000 rfl rfl).1 (by decide)

/-- Witness for C8 (amended) at the spec's end-to-end run. -/
theorem c8_witness : repC.done = true ↔ repC.workday < repC.work_time :=
  c8_done_flag_strict 57600000000000 str_8_00 none none str_39_00 [] repC rfl

/-- Witness for C9: the separator-less argument "9:00" dies out of bounds. -/
theorem c9_witness :
    calculate_duration_from_string_ts str_9_00 =
      .error CalcError.indexOutOfBounds :=
  (c9_missing_separator_oob str_9_00).1 (by decide)

/-- Witness for C10: with a 30m break the goal projection undercuts the
floored offset. -/
theorem c10_witness :
    repC.proj_goal <
      repC.start + repC.workday + max break_large repC.break_time :=
  (c10_goal_projection_no_floor 57600000000000 str_8_00 none none str_39_00
    [] repC rfl).2 (by decide)
